import Mathlib

/-!
Verification development for the datumaro project CLI
(datumaro/cli/contexts/project/__init__.py) and the annotation diff
engine it drives.

The CLI command functions are embedded shallowly: each command becomes a
pure Lean function from its parsed arguments and the relevant observable
state of the filesystem to the list of filesystem effects it performs and
an outcome (normal return value or raised exception). Python exceptions
become values of `PyError`; filesystem mutations become `Effect` values,
recorded in program order.

The diff engine proper (the Comparator, the Matcher, the Geometry overlap
and the DiffVisualizer renderer) lives outside the covered source tree:
only its CLI callers are covered. Those components are modelled from the
specification text and each such definition is marked
`Modelled from the spec:` in its doc comment.
-/

/-- Exceptions observable from the embedded commands. `cliError` is the
CliException of the CLI util module, `fileExists` the FileExistsError
raised by os.makedirs on a pre-existing directory, `typeError` the
TypeError raised by os.path.abspath on None. `invalidThreshold` and
`destinationRequired` are the configuration errors of the diff engine. -/
inductive PyError where
  | cliError (msg : String)
  | fileExists
  | typeError
  | invalidThreshold
  | destinationRequired
  deriving Repr, DecidableEq

/-- Filesystem mutations and external side effects a command can perform,
recorded in program order. -/
inductive Effect where
  | rmtree (dir : String)
  | makedirs (dir : String)
  | generateProject (dir name : String)
  | saveProject (dir : String)
  | saveDataset (dir : String)
  | exportProject (dir format : String)
  | extractProject (dir : String)
  | transformProject (dir : Option String) (method : String)
  | printStdout (text : String)
  | writeDiffDir (dir : String)
  deriving Repr, DecidableEq

/-- Result of running a command: the effects it performed, and either the
Python return value or the exception that terminated it. -/
abbrev CmdResult := List Effect × Except PyError Nat

/-- Python os.path.abspath on a present string. Path resolution is
performed by the standard library, outside this repository; path strings
are treated as uninterpreted atoms, so absolutisation is the identity. -/
def abspath (s : String) : String := s

/-- Python os.path.abspath applied to an optional value: abspath(None)
raises TypeError in the standard library. -/
def abspathOpt : Option String → Except PyError String
  | none => Except.error PyError.typeError
  | some s => Except.ok (abspath s)

/-- Python os.path.basename; like `abspath`, modelled as the identity on
uninterpreted path atoms. -/
def basename (s : String) : String := s

/-- Modelled from the spec: make_project_path comes from the CLI util
module, which the spec treats as an external collaborator; it derives the
project config file path inside a project directory. Only its being a
fixed function of the directory matters to the covered commands. -/
def make_project_path (dir : String) : String := dir ++ "/.datumaro/config"

/-- Modelled from the spec: generate_next_dir_name comes from the CLI
util module, an external collaborator; it derives a fresh output
directory name from a base name. Its value is uninterpreted here. -/
def generate_next_dir_name (base : String) : String := base

/-- Truthiness of a Python optional string: None and the empty string are
falsy, any other string is truthy. -/
def pyTruthy : Option String → Bool
  | none => false
  | some s => !s.isEmpty

/-- Observable filesystem state consulted by create_command and
import_command: whether the destination directory exists, whether it is
non-empty, and whether the project config file already exists. -/
structure FsState where
  isDir : Bool
  nonempty : Bool
  projFileExists : Bool
  deriving Repr, DecidableEq

/-- Arguments of the create subcommand as installed by
build_create_parser. -/
structure CreateArgs where
  dst_dir : String
  name : Option String
  overwrite : Bool
  deriving Repr, DecidableEq

/-- Embedding of create_command: checks the destination directory, then
creates the directory and generates the project. -/
def create_command (args : CreateArgs) (fs : FsState) : CmdResult :=
  let project_dir := abspath args.dst_dir
  let project_path := make_project_path project_dir
  let project_name := (args.name).getD (basename project_dir)
  if fs.isDir && fs.nonempty then
    if !args.overwrite then
      ([], Except.error (PyError.cliError ("Directory " ++ project_dir ++ " already exists")))
    else
      ([Effect.rmtree project_dir, Effect.makedirs project_dir,
        Effect.generateProject project_dir project_name], Except.ok 0)
  else
    if fs.isDir && !args.overwrite then
      ([], Except.error PyError.fileExists)
    else
      if !args.overwrite && fs.projFileExists then
        ([Effect.makedirs project_dir],
          Except.error (PyError.cliError ("Project file " ++ project_path ++ " already exists")))
      else
        ([Effect.makedirs project_dir,
          Effect.generateProject project_dir project_name], Except.ok 0)

/-- Arguments of the import subcommand as installed by
build_import_parser. -/
structure ImportArgs where
  dst_dir : String
  name : Option String
  copy : Bool
  skip_check : Bool
  overwrite : Bool
  source : String
  format : String
  deriving Repr, DecidableEq

/-- Embedding of import_command: the same destination checks as
create_command, then the imported project is written, either by cloning
the data into the project directory or by saving source links. -/
def import_command (args : ImportArgs) (fs : FsState) : CmdResult :=
  let project_dir := abspath args.dst_dir
  let project_path := make_project_path project_dir
  let writeEffs : List Effect :=
    if args.copy then [Effect.saveDataset project_dir] else [Effect.saveProject project_dir]
  if fs.isDir && fs.nonempty then
    if !args.overwrite then
      ([], Except.error (PyError.cliError ("Directory " ++ project_dir ++ " already exists")))
    else
      ([Effect.rmtree project_dir, Effect.makedirs project_dir] ++ writeEffs, Except.ok 0)
  else
    if fs.isDir && !args.overwrite then
      ([], Except.error PyError.fileExists)
    else
      if !args.overwrite && fs.projFileExists then
        ([Effect.makedirs project_dir],
          Except.error (PyError.cliError ("Project file " ++ project_path ++ " already exists")))
      else
        ([Effect.makedirs project_dir] ++ writeEffs, Except.ok 0)

/-- Arguments of the export subcommand as installed by
build_export_parser. -/
structure ExportArgs where
  filter : Option String
  filter_anns : Bool
  dst_dir : Option String
  overwrite : Bool
  project_dir : String
  output_format : String
  deriving Repr, DecidableEq

/-- Environment consulted by export_command: whether the explicit
destination exists and is non-empty, and whether a converter is
registered for the requested output format. -/
structure ExportEnv where
  destIsDir : Bool
  destNonempty : Bool
  converterKnown : Bool
  deriving Repr, DecidableEq

/-- Embedding of export_command: the pre-existing destination check runs
only for a truthy explicit destination; otherwise a fresh directory name
is generated from the output format. Then the converter is looked up and
the dataset is exported. -/
def export_command (args : ExportArgs) (env : ExportEnv) : CmdResult :=
  let checked : Except PyError String :=
    if pyTruthy args.dst_dir then
      if !args.overwrite && env.destIsDir && env.destNonempty then
        Except.error (PyError.cliError ("Directory " ++ (args.dst_dir).getD "" ++ " already exists"))
      else
        Except.ok ((args.dst_dir).getD "")
    else
      Except.ok (generate_next_dir_name ("export_" ++ args.output_format))
  match checked with
  | Except.error e => ([], Except.error e)
  | Except.ok d =>
    let dst_dir := abspath d
    if !env.converterKnown then
      ([], Except.error (PyError.cliError ("Converter for format " ++ args.output_format ++ " is not found")))
    else
      ([Effect.exportProject dst_dir args.output_format], Except.ok 0)

/-- Observable filesystem state consulted by extract_command,
transform_command and diff_command: whether the requested output
directory already exists, in which case os.makedirs raises. -/
structure DirFs where
  destExists : Bool
  deriving Repr, DecidableEq

/-- Arguments of the extract subcommand as installed by
build_extract_parser. -/
structure ExtractArgs where
  filter_anns : Bool
  remove_empty : Bool
  dry_run : Bool
  dst_dir : Option String
  project_dir : String
  filter : String
  deriving Repr, DecidableEq

/-- Embedding of extract_command. The destination is absolutised before
the dry-run test, so a missing destination raises TypeError even for dry
runs. `itemsXml` stands for the XML encodings of the filtered dataset
items printed by a dry run, supplied by the external dataset layer. -/
def extract_command (args : ExtractArgs) (fs : DirFs) (itemsXml : List String) : CmdResult :=
  match abspathOpt args.dst_dir with
  | Except.error e => ([], Except.error e)
  | Except.ok dst_dir =>
    if !args.dry_run then
      if fs.destExists then
        ([], Except.error PyError.fileExists)
      else
        ([Effect.makedirs dst_dir, Effect.extractProject dst_dir], Except.ok 0)
    else
      (itemsXml.map Effect.printStdout, Except.ok 0)

/-- Arguments of the transform subcommand as installed by
build_transform_parser. -/
structure TransformArgs where
  transform : String
  dst_dir : Option String
  project_dir : String
  deriving Repr, DecidableEq

/-- Embedding of transform_command. The destination is absolutised first
(raising TypeError when absent), then re-tested against None before
os.makedirs; at that point it is always a present string, so the
guarded fallback that would skip directory creation is dead code. -/
def transform_command (args : TransformArgs) (fs : DirFs) : CmdResult :=
  match abspathOpt args.dst_dir with
  | Except.error e => ([], Except.error e)
  | Except.ok dstAbs =>
    let dst_dir : Option String := some dstAbs
    match dst_dir with
    | some d =>
      if fs.destExists then
        ([], Except.error PyError.fileExists)
      else
        ([Effect.makedirs d, Effect.transformProject (some d) args.transform], Except.ok 0)
    | none =>
      ([Effect.transformProject none args.transform], Except.ok 0)

/-- Modelled from the spec: annotation geometry kinds. The Geometry
module, the Matcher and the Comparator live outside the covered source
tree; sections 3 and 4.1 of the specification fix the data model. The
box kind carries its two corner points; the label kind carries no
geometry. The remaining kinds (polygon, mask, point-set) enter the
matcher only through the overlap oracle, which the matcher below takes
as an explicit parameter. -/
inductive Shape where
  | box (x1 y1 x2 y2 : ℚ)
  | labelOnly
  deriving Repr, DecidableEq

/-- Modelled from the spec: one annotation, with a kind-specific shape,
an optional label index and an optional confidence (absent is treated
as certain, 1.0). -/
structure Ann where
  shape : Shape
  label : Option Nat
  confidence : Option ℚ
  deriving Repr, DecidableEq

/-- Area of an axis-aligned box given by corner coordinates; empty when
the corners are not properly ordered. -/
def boxArea (x1 y1 x2 y2 : ℚ) : ℚ :=
  max (x2 - x1) 0 * max (y2 - y1) 0

/-- Modelled from the spec: intersection-over-union of two boxes, area
of the intersection over area of the union; degenerate zero-area pairs
score 0 unless exactly coincident, by convention 1. -/
def boxIoU (ax1 ay1 ax2 ay2 bx1 by1 bx2 by2 : ℚ) : ℚ :=
  let inter := boxArea (max ax1 bx1) (max ay1 by1) (min ax2 bx2) (min ay2 by2)
  let uni := boxArea ax1 ay1 ax2 ay2 + boxArea bx1 by1 bx2 by2 - inter
  if uni = 0 then
    (if (ax1, ay1, ax2, ay2) = (bx1, by1, bx2, by2) then 1 else 0)
  else
    inter / uni

/-- Modelled from the spec: the overlap contract of the Geometry module.
Same-kind boxes score their IoU; label-only pairs score 1 when the
labels agree and 0 otherwise; annotations of differing kinds are
incomparable (none). -/
def overlap (a b : Ann) : Option ℚ :=
  match a.shape, b.shape with
  | Shape.box ax1 ay1 ax2 ay2, Shape.box bx1 by1 bx2 by2 =>
      some (boxIoU ax1 ay1 ax2 ay2 bx1 by1 bx2 by2)
  | Shape.labelOnly, Shape.labelOnly =>
      some (if a.label = b.label then 1 else 0)
  | _, _ => none

/-- Candidate pair of the matcher: reference index, candidate index and
their overlap score. -/
abbrev Pair := Nat × Nat × ℚ

/-- Modelled from the spec: the sort order of the matcher. Pairs are
ordered by overlap descending, ties broken by reference index ascending
then candidate index ascending. -/
def pairLE (p q : Pair) : Prop :=
  q.2.2 < p.2.2 ∨
    (p.2.2 = q.2.2 ∧ (p.1 < q.1 ∨ (p.1 = q.1 ∧ p.2.1 ≤ q.2.1)))

instance : DecidableRel pairLE := fun p q => by
  unfold pairLE; infer_instance

instance : IsTotal Pair pairLE where
  total p q := by
    rcases lt_trichotomy p.2.2 q.2.2 with h | h | h
    · exact Or.inr (Or.inl h)
    · rcases lt_trichotomy p.1 q.1 with h2 | h2 | h2
      · exact Or.inl (Or.inr ⟨h, Or.inl h2⟩)
      · rcases le_total p.2.1 q.2.1 with h3 | h3
        · exact Or.inl (Or.inr ⟨h, Or.inr ⟨h2, h3⟩⟩)
        · exact Or.inr (Or.inr ⟨h.symm, Or.inr ⟨h2.symm, h3⟩⟩)
      · exact Or.inr (Or.inr ⟨h.symm, Or.inl h2⟩)
    · exact Or.inl (Or.inl h)

instance : IsTrans Pair pairLE where
  trans p q r hpq hqr := by
    rcases hpq with h1 | ⟨he1, h1⟩
    · rcases hqr with h2 | ⟨he2, h2⟩
      · exact Or.inl (h2.trans h1)
      · exact Or.inl (he2 ▸ h1)
    · rcases hqr with h2 | ⟨he2, h2⟩
      · exact Or.inl (h2.trans_eq he1.symm)
      · refine Or.inr ⟨he1.trans he2, ?_⟩
        rcases h1 with h1 | ⟨hi1, h1⟩
        · rcases h2 with h2 | ⟨hi2, h2⟩
          · exact Or.inl (h1.trans h2)
          · exact Or.inl (hi2 ▸ h1)
        · rcases h2 with h2 | ⟨hi2, h2⟩
          · exact Or.inl (hi1 ▸ h2)
          · exact Or.inr ⟨hi1.trans hi2, h1.trans h2⟩

instance : IsAntisymm Pair pairLE where
  antisymm p q hpq hqp := by
    obtain ⟨pi, pj, ps⟩ := p
    obtain ⟨qi, qj, qs⟩ := q
    simp only [pairLE] at hpq hqp
    rcases hpq with h1 | ⟨he1, h1⟩
    · rcases hqp with h2 | ⟨he2, h2⟩
      · exact absurd (h1.trans h2) (lt_irrefl _)
      · exact absurd h1 (he2 ▸ lt_irrefl _)
    · rcases hqp with h2 | ⟨he2, h2⟩
      · exact absurd h2 (he1 ▸ lt_irrefl _)
      · rcases h1 with h1 | ⟨hi1, h1⟩
        · rcases h2 with h2 | ⟨hi2, h2⟩
          · exact absurd (h1.trans h2) (lt_irrefl _)
          · exact absurd h1 (hi2 ▸ lt_irrefl _)
        · rcases h2 with h2 | ⟨hi2, h2⟩
          · exact absurd h2 (hi1 ▸ lt_irrefl _)
          · exact Prod.ext hi1 (Prod.ext (le_antisymm h1 h2) he1)

/-- Modelled from the spec: step 1 of the matcher. All (reference,
candidate) index pairs whose annotations are comparable and whose
overlap reaches the IoU threshold (inclusive lower bound); incomparable
or below-threshold pairs are excluded. -/
def eligiblePairs (ov : Ann → Ann → Option ℚ) (tau : ℚ) (R C : List Ann) : List Pair :=
  (List.range R.length).flatMap fun i =>
    (List.range C.length).filterMap fun j =>
      match R.get? i, C.get? j with
      | some a, some b =>
        match ov a b with
        | some s => if tau ≤ s then some (i, j, s) else none
        | none => none
      | _, _ => none

/-- Modelled from the spec: step 2 of the matcher. Sort the candidate
pairs by overlap descending, ties broken by reference then candidate
index ascending. -/
def sortPairs (l : List Pair) : List Pair :=
  List.insertionSort pairLE l

/-- Modelled from the spec: step 3 of the matcher. Greedily accept the
highest-scoring remaining pair whose endpoints are both unclaimed,
claiming both endpoints. -/
def greedy : List Pair → List Nat → List Nat → List Pair
  | [], _, _ => []
  | p :: rest, cr, cc =>
    if p.1 ∈ cr ∨ p.2.1 ∈ cc then greedy rest cr cc
    else p :: greedy rest (p.1 :: cr) (p.2.1 :: cc)

/-- Modelled from the spec: the per-item match result. Matched pairs,
geometrically matched pairs whose labels disagree, and the unmatched
indices of each side. -/
structure MatchResult where
  matches' : List Pair
  label_mismatches : List Pair
  unmatched_reference : List Nat
  unmatched_candidate : List Nat
  deriving Repr, DecidableEq

/-- Pairs accepted by the greedy pass over the sorted eligible pairs,
both claimed sets starting empty. -/
def acceptedPairs (ov : Ann → Ann → Option ℚ) (tau : ℚ) (R C : List Ann) : List Pair :=
  greedy (sortPairs (eligiblePairs ov tau R C)) [] []

/-- Whether the two endpoints of an accepted pair carry the same label. -/
def agreeLabel (R C : List Ann) (p : Pair) : Bool :=
  decide (Option.bind (R.get? p.1) Ann.label = Option.bind (C.get? p.2.1) Ann.label)

/-- Modelled from the spec: the Matcher. Steps 1 to 5 of section 4.2:
eligible pairs, deterministic sort, greedy acceptance, routing of
accepted pairs by label agreement, and emission of never-claimed indices
as unmatched. -/
def matchAnns (ov : Ann → Ann → Option ℚ) (tau : ℚ) (R C : List Ann) : MatchResult :=
  { matches' := (acceptedPairs ov tau R C).filter (agreeLabel R C)
    label_mismatches := (acceptedPairs ov tau R C).filter fun p => !agreeLabel R C p
    unmatched_reference := (List.range R.length).filter fun i =>
      decide (i ∉ (acceptedPairs ov tau R C).map fun p => p.1)
    unmatched_candidate := (List.range C.length).filter fun j =>
      decide (j ∉ (acceptedPairs ov tau R C).map fun p => p.2.1) }

/-- Modelled from the spec: a dataset as consumed by the core, a mapping
from item id to the ordered annotations of the item. -/
structure Dataset where
  items : List (String × List Ann)
  deriving Repr, DecidableEq

/-- Item ids of a dataset, in dataset order. -/
def itemIds (d : Dataset) : List String :=
  d.items.map fun it => it.1

/-- Annotations of one item, when the item is present. -/
def getAnns (d : Dataset) (id : String) : Option (List Ann) :=
  (d.items.find? fun it => it.1 == id).map fun it => it.2

/-- The Comparator configuration: an IoU threshold and a confidence
threshold, stored by the constructor. -/
structure Comparator where
  iou_threshold : ℚ
  conf_threshold : ℚ
  deriving Repr, DecidableEq

/-- Modelled from the spec: Comparator construction is a configuration
step; a threshold outside [0,1] fails with InvalidThreshold before any
comparison starts and is never clamped into range, and in-range
thresholds are stored unchanged. The Comparator class itself lives
outside the covered source tree. -/
def Comparator.init (iou conf : ℚ) : Except PyError Comparator :=
  if iou < 0 ∨ 1 < iou ∨ conf < 0 ∨ 1 < conf then
    Except.error PyError.invalidThreshold
  else
    Except.ok { iou_threshold := iou, conf_threshold := conf }

/-- Modelled from the spec: the per-item record of the Comparator: the
match result over the surviving annotations, plus the candidate indices
excluded as low-confidence, reported separately rather than as
unmatched. -/
structure ItemDiff where
  result : MatchResult
  low_conf_ignored : List Nat
  deriving Repr, DecidableEq

/-- Modelled from the spec: a confusion table axis value, the label of an
annotation (itself possibly absent) or the explicit sentinel for a
missing counterpart. -/
inductive CellLabel where
  | absent
  | lab (l : Option Nat)
  deriving Repr, DecidableEq

/-- Increment one cell of the sparse confusion table. -/
def bumpCell (t : List ((CellLabel × CellLabel) × Nat)) (k : CellLabel × CellLabel) :
    List ((CellLabel × CellLabel) × Nat) :=
  match t with
  | [] => [(k, 1)]
  | (k0, n) :: rest => if k0 = k then (k0, n + 1) :: rest else (k0, n) :: bumpCell rest k

/-- Label of the annotation at an index, as a confusion axis value. -/
def labAt (l : List Ann) (i : Nat) : CellLabel :=
  CellLabel.lab (Option.bind (l.get? i) Ann.label)

/-- Modelled from the spec: confusion contributions of one item pair.
Matches count on the diagonal of the reference label, label mismatches
on the (reference label, candidate label) cell, and unmatched elements
against the sentinel. -/
def itemCells (R C : List Ann) (m : MatchResult) : List (CellLabel × CellLabel) :=
  (m.matches'.map fun p => (labAt R p.1, labAt R p.1)) ++
  (m.label_mismatches.map fun p => (labAt R p.1, labAt C p.2.1)) ++
  (m.unmatched_reference.map fun i => (labAt R i, CellLabel.absent)) ++
  (m.unmatched_candidate.map fun j => (CellLabel.absent, labAt C j))

/-- Modelled from the spec: the aggregate diff report, a per-item record
for every id of either dataset plus the global confusion table. -/
structure DiffReport where
  results : List (String × ItemDiff)
  confusion : List ((CellLabel × CellLabel) × Nat)
  deriving Repr, DecidableEq

/-- Modelled from the spec: the Comparator run. The item universe is the
union of both id sets (one-sided items are reported, not errors);
candidate annotations below the confidence threshold (absent confidence
counts as certain) are excluded from matching and reported separately;
the Matcher runs per item on the surviving annotations; confusion cells
are accumulated over all items. -/
def Comparator.compare (c : Comparator) (d1 d2 : Dataset) : DiffReport :=
  let ids := itemIds d1 ++ (itemIds d2).filter fun i => decide (i ∉ itemIds d1)
  let keep : Ann → Bool := fun a => decide (c.conf_threshold ≤ (a.confidence).getD 1)
  let per : List (String × List Ann × List Ann × ItemDiff) := ids.map fun id =>
    let R := (getAnns d1 id).getD []
    let C0 := (getAnns d2 id).getD []
    let C := C0.filter keep
    let low := (List.range C0.length).filter fun j =>
      match C0.get? j with
      | some a => !keep a
      | none => false
    (id, R, C, { result := matchAnns overlap c.iou_threshold R C, low_conf_ignored := low })
  { results := per.map fun e => (e.1, e.2.2.2)
    confusion := per.foldl
      (fun t e => (itemCells e.2.1 e.2.2.1 e.2.2.2.result).foldl bumpCell t) [] }

/-- Modelled from the spec: the closed set of renderer output kinds: the
plain-text summary, the per-item visual overlay and the machine-readable
structured export of the full report. -/
inductive DiffFormat where
  | textSummary
  | visualOverlay
  | structuredExport
  deriving Repr, DecidableEq

/-- Modelled from the spec: the default output format offered by the
diff argument parser. The spec fixes only that the text summary is the
kind that needs no destination. -/
def DiffVisualizer.DEFAULT_FORMAT : DiffFormat := DiffFormat.textSummary

/-- Count of entries of one item record, used by the text summary. -/
def ItemDiff.mismatchCount (d : ItemDiff) : Nat :=
  d.result.label_mismatches.length +
    d.result.unmatched_reference.length + d.result.unmatched_candidate.length

/-- Modelled from the spec: the plain-text summary of a report, a
deterministic function of the report alone. -/
def summaryText (r : DiffReport) : String :=
  "items: " ++ toString r.results.length ++ ", mismatched entries: " ++
    toString ((r.results.map fun e => e.2.mismatchCount).foldl (· + ·) 0)

/-- Modelled from the spec: the renderer. With a destination directory,
files are written under that directory for any format; with the
destination omitted, the text summary prints to the standard output
stream and every other format fails with DestinationRequired. -/
def renderDiff (save_dir : Option String) (fmt : DiffFormat) (r : DiffReport) :
    Except PyError (List Effect) :=
  match save_dir with
  | some d => Except.ok [Effect.writeDiffDir (abspath d)]
  | none =>
    match fmt with
    | DiffFormat.textSummary => Except.ok [Effect.printStdout (summaryText r)]
    | DiffFormat.visualOverlay => Except.error PyError.destinationRequired
    | DiffFormat.structuredExport => Except.error PyError.destinationRequired

/-- Arguments of the diff subcommand as installed by build_diff_parser.
The parser offers no overwrite flag for the diff destination. -/
structure DiffArgs where
  other_project_dir : String
  dst_dir : Option String
  output_format : DiffFormat
  iou_thresh : ℚ
  conf_thresh : ℚ
  project_dir : String
  deriving Repr, DecidableEq

/-- Environment of a diff run: whether the requested destination already
exists, and the datasets produced by the two loaded projects. -/
structure DiffEnv where
  destExists : Bool
  dataset1 : Dataset
  dataset2 : Dataset
  deriving Repr, DecidableEq

/-- Embedding of diff_command: both projects are loaded (read-only), the
Comparator is constructed from exactly the threshold arguments, the
destination directory is created by os.makedirs when given (raising if
it pre-exists, with no overwrite option), and the visualizer renders the
comparison of the two datasets. -/
def diff_command (args : DiffArgs) (env : DiffEnv) : CmdResult :=
  match Comparator.init args.iou_thresh args.conf_thresh with
  | Except.error e => ([], Except.error e)
  | Except.ok comp =>
    let rep := comp.compare env.dataset1 env.dataset2
    match args.dst_dir with
    | some d =>
      if env.destExists then
        ([], Except.error PyError.fileExists)
      else
        match renderDiff (some d) args.output_format rep with
        | Except.error e => ([Effect.makedirs (abspath d)], Except.error e)
        | Except.ok effs => (Effect.makedirs (abspath d) :: effs, Except.ok 0)
    | none =>
      match renderDiff none args.output_format rep with
      | Except.error e => ([], Except.error e)
      | Except.ok effs => (effs, Except.ok 0)

/-- Defaults installed by build_diff_parser: no destination, the default
output format, IoU threshold 0.5, confidence threshold 0.5, current
directory as first project. -/
def diffParserDefaults (other_project_dir : String) : DiffArgs :=
  { other_project_dir := other_project_dir
    dst_dir := none
    output_format := DiffVisualizer.DEFAULT_FORMAT
    iou_thresh := 1 / 2
    conf_thresh := 1 / 2
    project_dir := "." }

theorem greedy_subset : ∀ (ps : List Pair) (cr cc : List Nat) (p : Pair),
    p ∈ greedy ps cr cc → p ∈ ps := by
  intro ps
  induction ps with
  | nil => intro cr cc p h; simp [greedy] at h
  | cons q rest ih =>
    intro cr cc p h
    simp only [greedy] at h
    split at h
    · exact List.mem_cons_of_mem _ (ih _ _ _ h)
    · rcases List.mem_cons.1 h with h | h
      · exact h ▸ List.mem_cons_self _ _
      · exact List.mem_cons_of_mem _ (ih _ _ _ h)

theorem greedy_unclaimed : ∀ (ps : List Pair) (cr cc : List Nat) (p : Pair),
    p ∈ greedy ps cr cc → p.1 ∉ cr ∧ p.2.1 ∉ cc := by
  intro ps
  induction ps with
  | nil => intro cr cc p h; simp [greedy] at h
  | cons q rest ih =>
    intro cr cc p h
    simp only [greedy] at h
    split at h
    · exact ih _ _ _ h
    · rename_i hq
      push_neg at hq
      rcases List.mem_cons.1 h with h | h
      · exact h ▸ hq
      · have hih := ih _ _ _ h
        exact ⟨fun hc => hih.1 (List.mem_cons_of_mem _ hc),
               fun hc => hih.2 (List.mem_cons_of_mem _ hc)⟩

theorem greedy_nodup_fst : ∀ (ps : List Pair) (cr cc : List Nat),
    ((greedy ps cr cc).map fun p => p.1).Nodup := by
  intro ps
  induction ps with
  | nil => intro cr cc; simp [greedy]
  | cons q rest ih =>
    intro cr cc
    simp only [greedy]
    split
    · exact ih _ _
    · rw [List.map_cons, List.nodup_cons]
      refine ⟨fun hmem => ?_, ih _ _⟩
      rw [List.mem_map] at hmem
      obtain ⟨p, hp, hpe⟩ := hmem
      exact (greedy_unclaimed _ _ _ _ hp).1 (hpe ▸ List.mem_cons_self _ _)

theorem greedy_nodup_snd : ∀ (ps : List Pair) (cr cc : List Nat),
    ((greedy ps cr cc).map fun p => p.2.1).Nodup := by
  intro ps
  induction ps with
  | nil => intro cr cc; simp [greedy]
  | cons q rest ih =>
    intro cr cc
    simp only [greedy]
    split
    · exact ih _ _
    · rw [List.map_cons, List.nodup_cons]
      refine ⟨fun hmem => ?_, ih _ _⟩
      rw [List.mem_map] at hmem
      obtain ⟨p, hp, hpe⟩ := hmem
      exact (greedy_unclaimed _ _ _ _ hp).2 (hpe ▸ List.mem_cons_self _ _)

theorem mem_eligiblePairs {ov : Ann → Ann → Option ℚ} {tau : ℚ} {R C : List Ann} {p : Pair} :
    p ∈ eligiblePairs ov tau R C ↔
      ∃ a b, R.get? p.1 = some a ∧ C.get? p.2.1 = some b ∧
        ov a b = some p.2.2 ∧ tau ≤ p.2.2 := by
  simp only [eligiblePairs, List.mem_flatMap, List.mem_filterMap, List.mem_range]
  constructor
  · rintro ⟨i, hi, j, hj, hm⟩
    split at hm
    · rename_i a b hR hC
      split at hm
      · rename_i s hov
        split at hm
        · rename_i hts
          obtain rfl : (i, j, s) = p := Option.some.inj hm
          exact ⟨a, b, hR, hC, hov, hts⟩
        · simp at hm
      · simp at hm
    · simp at hm
  · rintro ⟨a, b, hR, hC, hov, hts⟩
    refine ⟨p.1, (List.get?_eq_some.1 hR).1, p.2.1, (List.get?_eq_some.1 hC).1, ?_⟩
    simp only [hR, hC, hov, if_pos hts]

theorem nodup_append_filter_perm (l : List Nat) (n : Nat) (hd : l.Nodup)
    (hsub : ∀ x ∈ l, x < n) :
    List.Perm (l ++ (List.range n).filter fun i => decide (i ∉ l)) (List.range n) := by
  rw [List.perm_iff_count]
  intro a
  rw [List.count_append]
  by_cases hal : a ∈ l
  · rw [List.count_eq_one_of_mem hd hal]
    have h2 : ((List.range n).filter fun i => decide (i ∉ l)).count a = 0 := by
      rw [List.count_eq_zero]
      intro hmem
      have hp := List.of_mem_filter hmem
      rw [decide_eq_true_iff] at hp
      exact hp hal
    rw [h2, List.count_eq_one_of_mem (List.nodup_range n) (List.mem_range.2 (hsub a hal))]
  · rw [List.count_eq_zero.2 hal, List.count_filter (by simpa using hal), Nat.zero_add]

theorem acceptedPairs_mem_eligible {ov : Ann → Ann → Option ℚ} {tau : ℚ} {R C : List Ann}
    {p : Pair} (hp : p ∈ acceptedPairs ov tau R C) : p ∈ eligiblePairs ov tau R C :=
  (List.Perm.mem_iff (List.perm_insertionSort pairLE _)).1 (greedy_subset _ _ _ p hp)

/-- The reference side of the partition argument, stated for an
arbitrary overlap oracle. -/
theorem matchAnns_fst_perm (ov : Ann → Ann → Option ℚ) (tau : ℚ) (R C : List Ann) :
    List.Perm
      ((((matchAnns ov tau R C).matches').map fun p => p.1) ++
        (((matchAnns ov tau R C).label_mismatches).map fun p => p.1) ++
        (matchAnns ov tau R C).unmatched_reference)
      (List.range R.length) := by
  simp only [matchAnns]
  have hsplit : List.Perm
      (((acceptedPairs ov tau R C).filter (agreeLabel R C)).map (fun p => p.1) ++
        ((acceptedPairs ov tau R C).filter fun p => !agreeLabel R C p).map (fun p => p.1))
      ((acceptedPairs ov tau R C).map fun p => p.1) := by
    rw [← List.map_append]
    exact (List.filter_append_perm (agreeLabel R C) (acceptedPairs ov tau R C)).map _
  have hnodup : ((acceptedPairs ov tau R C).map fun p => p.1).Nodup :=
    greedy_nodup_fst _ _ _
  have hlt : ∀ x ∈ (acceptedPairs ov tau R C).map fun p => p.1, x < R.length := by
    intro x hx
    rw [List.mem_map] at hx
    obtain ⟨p, hp, rfl⟩ := hx
    obtain ⟨a, b, hR, -, -, -⟩ := mem_eligiblePairs.1 (acceptedPairs_mem_eligible hp)
    exact (List.get?_eq_some.1 hR).1
  exact (hsplit.append_right _).trans (nodup_append_filter_perm _ _ hnodup hlt)

/-- The candidate side of the partition argument. -/
theorem matchAnns_snd_perm (ov : Ann → Ann → Option ℚ) (tau : ℚ) (R C : List Ann) :
    List.Perm
      ((((matchAnns ov tau R C).matches').map fun p => p.2.1) ++
        (((matchAnns ov tau R C).label_mismatches).map fun p => p.2.1) ++
        (matchAnns ov tau R C).unmatched_candidate)
      (List.range C.length) := by
  simp only [matchAnns]
  have hsplit : List.Perm
      (((acceptedPairs ov tau R C).filter (agreeLabel R C)).map (fun p => p.2.1) ++
        ((acceptedPairs ov tau R C).filter fun p => !agreeLabel R C p).map (fun p => p.2.1))
      ((acceptedPairs ov tau R C).map fun p => p.2.1) := by
    rw [← List.map_append]
    exact (List.filter_append_perm (agreeLabel R C) (acceptedPairs ov tau R C)).map _
  have hnodup : ((acceptedPairs ov tau R C).map fun p => p.2.1).Nodup :=
    greedy_nodup_snd _ _ _
  have hlt : ∀ x ∈ (acceptedPairs ov tau R C).map fun p => p.2.1, x < C.length := by
    intro x hx
    rw [List.mem_map] at hx
    obtain ⟨p, hp, rfl⟩ := hx
    obtain ⟨a, b, -, hC, -, -⟩ := mem_eligiblePairs.1 (acceptedPairs_mem_eligible hp)
    exact (List.get?_eq_some.1 hC).1
  exact (hsplit.append_right _).trans (nodup_append_filter_perm _ _ hnodup hlt)

/-- C6: the matcher output partitions the input index ranges. Every
reference index occurs exactly once across the reference projections of
matches and label mismatches together with unmatched_reference, and
every candidate index exactly once across the candidate projections
together with unmatched_candidate: each side is a permutation of its
full input index range, so no index is duplicated or omitted. -/
theorem matcher_output_partitions_indices (ov : Ann → Ann → Option ℚ) (tau : ℚ)
    (R C : List Ann) :
    List.Perm
      ((((matchAnns ov tau R C).matches').map fun p => p.1) ++
        (((matchAnns ov tau R C).label_mismatches).map fun p => p.1) ++
        (matchAnns ov tau R C).unmatched_reference)
      (List.range R.length) ∧
    List.Perm
      ((((matchAnns ov tau R C).matches').map fun p => p.2.1) ++
        (((matchAnns ov tau R C).label_mismatches).map fun p => p.2.1) ++
        (matchAnns ov tau R C).unmatched_candidate)
      (List.range C.length) :=
  ⟨matchAnns_fst_perm ov tau R C, matchAnns_snd_perm ov tau R C⟩

/-- C7: a pair whose overlap is exactly the IoU threshold is eligible
for matching; the threshold is an inclusive lower bound. -/
theorem threshold_boundary_inclusive (ov : Ann → Ann → Option ℚ) (tau : ℚ) (R C : List Ann)
    (i j : Nat) (a b : Ann) (hR : R.get? i = some a) (hC : C.get? j = some b)
    (hov : ov a b = some tau) :
    (i, j, tau) ∈ eligiblePairs ov tau R C :=
  mem_eligiblePairs.2 ⟨a, b, hR, hC, hov, le_refl tau⟩

/-- Witness for C7 at a concrete input: two identical label-only
annotations overlap exactly 1, equal to the threshold 1, and the pair of
their indices is eligible. -/
theorem threshold_boundary_inclusive_witness :
    overlap { shape := Shape.labelOnly, label := some 0, confidence := none }
        { shape := Shape.labelOnly, label := some 0, confidence := none } = some 1 ∧
    ((0, 0, (1 : ℚ)) ∈ eligiblePairs overlap 1
      [{ shape := Shape.labelOnly, label := some 0, confidence := none }]
      [{ shape := Shape.labelOnly, label := some 0, confidence := none }]) :=
  ⟨rfl, threshold_boundary_inclusive overlap 1 _ _ 0 0 _ _ rfl rfl rfl⟩

/-- C5: the comparison is a pure function of its inputs (two runs on the
same datasets and thresholds produce the same report), and the order in
which the matcher considers candidate pairs is fully determined: the
sorted pair list is a permutation of the eligible pairs, it is sorted by
overlap descending with ties broken by reference index then candidate
index ascending (the order pairLE), and it is the unique such list, so
the result does not depend on any incidental arrangement. -/
theorem compare_deterministic (c : Comparator) (d1 d2 : Dataset) :
    Comparator.compare c d1 d2 = Comparator.compare c d1 d2 ∧
    ∀ (ov : Ann → Ann → Option ℚ) (tau : ℚ) (R C : List Ann),
      List.Perm (sortPairs (eligiblePairs ov tau R C)) (eligiblePairs ov tau R C) ∧
      List.Sorted pairLE (sortPairs (eligiblePairs ov tau R C)) ∧
      ∀ l, List.Perm l (eligiblePairs ov tau R C) → List.Sorted pairLE l →
        l = sortPairs (eligiblePairs ov tau R C) := by
  refine ⟨rfl, fun ov tau R C =>
    ⟨List.perm_insertionSort pairLE _, List.sorted_insertionSort pairLE _, ?_⟩⟩
  intro l hp hs
  exact List.eq_of_perm_of_sorted (hp.trans (List.perm_insertionSort pairLE _).symm) hs
    (List.sorted_insertionSort pairLE _)

/-- C1: a diff run with either threshold outside [0,1] fails with
InvalidThreshold before any comparison or filesystem effect, and the
out-of-range value is never clamped into range. -/
theorem diff_rejects_out_of_range_threshold (args : DiffArgs) (env : DiffEnv)
    (h : args.iou_thresh < 0 ∨ 1 < args.iou_thresh ∨
      args.conf_thresh < 0 ∨ 1 < args.conf_thresh) :
    diff_command args env = ([], Except.error PyError.invalidThreshold) := by
  unfold diff_command Comparator.init
  rw [if_pos h]

/-- Witness for C1: an IoU threshold of 2 is rejected. -/
theorem diff_rejects_out_of_range_threshold_witness :
    diff_command
      { other_project_dir := "other", dst_dir := none,
        output_format := DiffFormat.textSummary, iou_thresh := 2, conf_thresh := 0,
        project_dir := "." }
      { destExists := false, dataset1 := { items := [] }, dataset2 := { items := [] } } =
      ([], Except.error PyError.invalidThreshold) :=
  diff_rejects_out_of_range_threshold _ _ (Or.inr (Or.inl (by decide)))

/-- C2: when the requested diff destination already exists, the run
fails without performing any filesystem effect; the diff parser offers
no overwrite flag, so no overwrite mode can be requested. -/
theorem diff_dest_preexisting_fails (args : DiffArgs) (env : DiffEnv) (d : String)
    (hd : args.dst_dir = some d) (hex : env.destExists = true) :
    (diff_command args env).1 = [] ∧ ∃ e, (diff_command args env).2 = Except.error e := by
  unfold diff_command Comparator.init
  by_cases hth : args.iou_thresh < 0 ∨ 1 < args.iou_thresh ∨
      args.conf_thresh < 0 ∨ 1 < args.conf_thresh
  · rw [if_pos hth]
    exact ⟨rfl, PyError.invalidThreshold, rfl⟩
  · rw [if_neg hth, hd, hex]
    exact ⟨rfl, PyError.fileExists, rfl⟩

/-- Witness for C2: a pre-existing destination makes the run fail with
no effects. -/
theorem diff_dest_preexisting_fails_witness :
    (diff_command
      { other_project_dir := "other", dst_dir := some "out",
        output_format := DiffFormat.textSummary, iou_thresh := 0, conf_thresh := 0,
        project_dir := "." }
      { destExists := true, dataset1 := { items := [] }, dataset2 := { items := [] } }).1 = [] ∧
    ∃ e, (diff_command
      { other_project_dir := "other", dst_dir := some "out",
        output_format := DiffFormat.textSummary, iou_thresh := 0, conf_thresh := 0,
        project_dir := "." }
      { destExists := true, dataset1 := { items := [] }, dataset2 := { items := [] } }).2 =
      Except.error e :=
  diff_dest_preexisting_fails _ _ "out" rfl rfl

/-- C3: the diff parser defaults both thresholds to 0.5, and exactly
these values reach the Comparator constructor, which stores them
unchanged. -/
theorem diff_default_thresholds (o : String) :
    (diffParserDefaults o).iou_thresh = 1 / 2 ∧
    (diffParserDefaults o).conf_thresh = 1 / 2 ∧
    Comparator.init (diffParserDefaults o).iou_thresh (diffParserDefaults o).conf_thresh =
      Except.ok { iou_threshold := 1 / 2, conf_threshold := 1 / 2 } := by
  refine ⟨rfl, rfl, ?_⟩
  show Comparator.init (1 / 2) (1 / 2) = _
  unfold Comparator.init
  rw [if_neg (by norm_num)]

/-- C4: with the destination omitted, the text summary prints to the
standard output stream and every other format fails with
DestinationRequired, provided the thresholds are in range. -/
theorem diff_no_dest_text_or_fail (args : DiffArgs) (env : DiffEnv)
    (hd : args.dst_dir = none)
    (hok : ¬(args.iou_thresh < 0 ∨ 1 < args.iou_thresh ∨
      args.conf_thresh < 0 ∨ 1 < args.conf_thresh)) :
    (args.output_format = DiffFormat.textSummary →
      ∃ s, diff_command args env = ([Effect.printStdout s], Except.ok 0)) ∧
    (args.output_format ≠ DiffFormat.textSummary →
      diff_command args env = ([], Except.error PyError.destinationRequired)) := by
  unfold diff_command Comparator.init
  rw [if_neg hok, hd]
  constructor
  · intro hf
    rw [hf]
    exact ⟨_, rfl⟩
  · intro hf
    cases hfmt : args.output_format with
    | textSummary => exact absurd hfmt hf
    | visualOverlay => rfl
    | structuredExport => rfl

/-- Witness for C4: with no destination, the default text summary
prints, and the visual overlay format is rejected. -/
theorem diff_no_dest_text_or_fail_witness :
    (∃ s, diff_command
      { other_project_dir := "other", dst_dir := none,
        output_format := DiffFormat.textSummary, iou_thresh := 1, conf_thresh := 0,
        project_dir := "." }
      { destExists := false, dataset1 := { items := [] }, dataset2 := { items := [] } } =
      ([Effect.printStdout s], Except.ok 0)) ∧
    diff_command
      { other_project_dir := "other", dst_dir := none,
        output_format := DiffFormat.visualOverlay, iou_thresh := 1, conf_thresh := 0,
        project_dir := "." }
      { destExists := false, dataset1 := { items := [] }, dataset2 := { items := [] } } =
      ([], Except.error PyError.destinationRequired) :=
  ⟨(diff_no_dest_text_or_fail _ _ rfl (by decide)).1 rfl,
   (diff_no_dest_text_or_fail _ _ rfl (by decide)).2 (by decide)⟩

/-- C8: with the destination omitted, extract_command and
transform_command raise TypeError at the initial os.path.abspath call,
performing no effects; and transform_command never reaches its
None-guarded fallback, so the documented default destination is never
used: no run ever performs a transform with an absent save directory. -/
theorem extract_transform_missing_dest :
    (∀ (eargs : ExtractArgs) (fs : DirFs) (xs : List String), eargs.dst_dir = none →
      extract_command eargs fs xs = ([], Except.error PyError.typeError)) ∧
    (∀ (targs : TransformArgs) (fs : DirFs), targs.dst_dir = none →
      transform_command targs fs = ([], Except.error PyError.typeError)) ∧
    (∀ (targs : TransformArgs) (fs : DirFs) (m : String),
      Effect.transformProject none m ∉ (transform_command targs fs).1) := by
  refine ⟨?_, ?_, ?_⟩
  · intro eargs fs xs h
    unfold extract_command abspathOpt
    rw [h]
  · intro targs fs h
    unfold transform_command abspathOpt
    rw [h]
  · intro targs fs m hmem
    unfold transform_command abspathOpt at hmem
    cases hdst : targs.dst_dir with
    | none =>
      rw [hdst] at hmem
      simp at hmem
    | some d =>
      rw [hdst] at hmem
      cases he : fs.destExists with
      | true =>
        rw [he] at hmem
        simp at hmem
      | false =>
        rw [he] at hmem
        simp at hmem

/-- Witness for C8 at concrete inputs. -/
theorem extract_transform_missing_dest_witness :
    extract_command
      { filter_anns := false, remove_empty := false, dry_run := false,
        dst_dir := none, project_dir := ".", filter := "x" }
      { destExists := false } [] = ([], Except.error PyError.typeError) ∧
    transform_command { transform := "t", dst_dir := none, project_dir := "." }
      { destExists := false } = ([], Except.error PyError.typeError) ∧
    Effect.transformProject none "t" ∉
      (transform_command { transform := "t", dst_dir := some "out", project_dir := "." }
        { destExists := false }).1 :=
  ⟨extract_transform_missing_dest.1 _ _ [] rfl,
   extract_transform_missing_dest.2.1 _ _ rfl,
   extract_transform_missing_dest.2.2 _ _ "t"⟩

/-- C9: when the destination directory exists and is non-empty, both
create_command and import_command raise CliException before any
filesystem mutation unless overwrite is passed; with overwrite, the
whole existing tree is removed first and the new project is created
afterwards. -/
theorem create_import_existing_nonempty_guard (cargs : CreateArgs) (iargs : ImportArgs)
    (fs : FsState) (hdir : fs.isDir = true) (hne : fs.nonempty = true) :
    (cargs.overwrite = false →
      create_command cargs fs =
        ([], Except.error (PyError.cliError
          ("Directory " ++ abspath cargs.dst_dir ++ " already exists")))) ∧
    (cargs.overwrite = true →
      create_command cargs fs =
        ([Effect.rmtree (abspath cargs.dst_dir), Effect.makedirs (abspath cargs.dst_dir),
          Effect.generateProject (abspath cargs.dst_dir)
            ((cargs.name).getD (basename (abspath cargs.dst_dir)))], Except.ok 0)) ∧
    (iargs.overwrite = false →
      import_command iargs fs =
        ([], Except.error (PyError.cliError
          ("Directory " ++ abspath iargs.dst_dir ++ " already exists")))) ∧
    (iargs.overwrite = true →
      import_command iargs fs =
        ([Effect.rmtree (abspath iargs.dst_dir), Effect.makedirs (abspath iargs.dst_dir)] ++
          (if iargs.copy then [Effect.saveDataset (abspath iargs.dst_dir)]
            else [Effect.saveProject (abspath iargs.dst_dir)]), Except.ok 0)) := by
  refine ⟨fun hov => ?_, fun hov => ?_, fun hov => ?_, fun hov => ?_⟩
  · simp only [create_command, hdir, hne, hov]; rfl
  · simp only [create_command, hdir, hne, hov]; rfl
  · simp only [import_command, hdir, hne, hov]; rfl
  · simp only [import_command, hdir, hne, hov]; rfl

/-- Witness for C9 at concrete inputs: both guard outcomes for both
commands over an existing non-empty destination. -/
theorem create_import_existing_nonempty_guard_witness :
    create_command { dst_dir := "d", name := none, overwrite := false }
      { isDir := true, nonempty := true, projFileExists := false } =
      ([], Except.error (PyError.cliError
        ("Directory " ++ abspath "d" ++ " already exists"))) ∧
    create_command { dst_dir := "d", name := none, overwrite := true }
      { isDir := true, nonempty := true, projFileExists := false } =
      ([Effect.rmtree (abspath "d"), Effect.makedirs (abspath "d"),
        Effect.generateProject (abspath "d")
          ((none : Option String).getD (basename (abspath "d")))], Except.ok 0) ∧
    import_command
      { dst_dir := "d", name := none, copy := false, skip_check := false,
        overwrite := false, source := "s", format := "coco" }
      { isDir := true, nonempty := true, projFileExists := false } =
      ([], Except.error (PyError.cliError
        ("Directory " ++ abspath "d" ++ " already exists"))) ∧
    import_command
      { dst_dir := "d", name := none, copy := false, skip_check := false,
        overwrite := true, source := "s", format := "coco" }
      { isDir := true, nonempty := true, projFileExists := false } =
      ([Effect.rmtree (abspath "d"), Effect.makedirs (abspath "d")] ++
        (if false then [Effect.saveDataset (abspath "d")]
          else [Effect.saveProject (abspath "d")]), Except.ok 0) :=
  ⟨(create_import_existing_nonempty_guard
      { dst_dir := "d", name := none, overwrite := false }
      { dst_dir := "d", name := none, copy := false, skip_check := false,
        overwrite := false, source := "s", format := "coco" } _ rfl rfl).1 rfl,
   (create_import_existing_nonempty_guard
      { dst_dir := "d", name := none, overwrite := true }
      { dst_dir := "d", name := none, copy := false, skip_check := false,
        overwrite := false, source := "s", format := "coco" } _ rfl rfl).2.1 rfl,
   (create_import_existing_nonempty_guard
      { dst_dir := "d", name := none, overwrite := false }
      { dst_dir := "d", name := none, copy := false, skip_check := false,
        overwrite := false, source := "s", format := "coco" } _ rfl rfl).2.2.1 rfl,
   (create_import_existing_nonempty_guard
      { dst_dir := "d", name := none, overwrite := false }
      { dst_dir := "d", name := none, copy := false, skip_check := false,
        overwrite := true, source := "s", format := "coco" } _ rfl rfl).2.2.2 rfl⟩

/-- C10: export_command checks for a pre-existing destination only when
an explicit truthy destination is supplied; when the destination is
omitted a fresh name is generated from the output format and the export
proceeds with no overwrite or pre-existence check, whatever the state of
the filesystem. -/
theorem export_dest_check_only_for_explicit (args : ExportArgs) (env : ExportEnv) :
    (args.dst_dir = none → env.converterKnown = true →
      export_command args env =
        ([Effect.exportProject
            (abspath (generate_next_dir_name ("export_" ++ args.output_format)))
            args.output_format], Except.ok 0)) ∧
    (∀ d, args.dst_dir = some d → d ≠ "" → args.overwrite = false →
      env.destIsDir = true → env.destNonempty = true →
      export_command args env =
        ([], Except.error (PyError.cliError ("Directory " ++ d ++ " already exists")))) := by
  constructor
  · intro hd hconv
    simp [export_command, hd, hconv, pyTruthy]
  · intro d hd hne hov hdir hnemp
    have hie : d.isEmpty = false := by
      rw [Bool.eq_false_iff]
      intro hb
      exact hne ((String.isEmpty_iff _).1 hb)
    simp [export_command, hd, hov, hdir, hnemp, pyTruthy, hie]

/-- Witness for C10 at concrete inputs: with the destination omitted the
export succeeds even over an existing non-empty directory, and with an
explicit destination the same filesystem state is rejected. -/
theorem export_dest_check_only_for_explicit_witness :
    export_command
      { filter := none, filter_anns := false, dst_dir := none, overwrite := false,
        project_dir := ".", output_format := "coco" }
      { destIsDir := true, destNonempty := true, converterKnown := true } =
      ([Effect.exportProject (abspath (generate_next_dir_name ("export_" ++ "coco")))
          "coco"], Except.ok 0) ∧
    export_command
      { filter := none, filter_anns := false, dst_dir := some "out", overwrite := false,
        project_dir := ".", output_format := "coco" }
      { destIsDir := true, destNonempty := true, converterKnown := true } =
      ([], Except.error (PyError.cliError ("Directory " ++ "out" ++ " already exists"))) :=
  ⟨(export_dest_check_only_for_explicit _ _).1 rfl rfl,
   (export_dest_check_only_for_explicit _ _).2 "out" rfl (by decide) rfl rfl rfl⟩
